import Mathlib

/-!
Verification of the SmartCityHub Flask server (`src/app.py`) and the
prediction model (`src/models/prediction_model.py`).

The server is embedded shallowly: each Flask handler becomes a Lean
function from an explicit `AppState` (the process-wide cached gspread
client, the remote sheet, the local fallback files, the telemetry log
and the evidence directory) to a `Response` together with the successor
state.  JSON documents are modelled by the inductive `Json`; file
contents that the code parses with `json.load` are modelled already in
parsed form (arbitrary binary contents of evidence files stay as byte
lists).  Exceptions caught by the handlers' `try/except` blocks are
modelled by the corresponding error branch of each function.
-/

/-- JSON documents, as produced by `request.get_json()` / `json.load`.
Numbers are modelled as integers; the claims never inspect numerics. -/
inductive Json where
  | null : Json
  | bool (b : Bool) : Json
  | num (n : Int) : Json
  | str (s : String) : Json
  | arr (xs : List Json) : Json
  | obj (kvs : List (String × Json)) : Json

/-- Escape of one character inside a JSON string literal (`json.dumps`). -/
def jsonEscapeChar (c : Char) : String :=
  if c = '"' then "\\\""
  else if c = '\\' then "\\\\"
  else if c = '\n' then "\\n"
  else if c = '\t' then "\\t"
  else if c = '\r' then "\\r"
  else String.mk [c]

/-- A JSON string literal: quotes around the escaped characters. -/
def jsonStringLit (s : String) : String :=
  "\"" ++ String.join (s.data.map jsonEscapeChar) ++ "\""

mutual

/-- Model of Python `json.dumps` with its default separators. -/
def Json.dumps : Json → String
  | .null => "null"
  | .bool true => "true"
  | .bool false => "false"
  | .num n => toString n
  | .str s => jsonStringLit s
  | .arr xs => "[" ++ Json.dumpsArr xs ++ "]"
  | .obj kvs => "\x7b" ++ Json.dumpsObj kvs ++ "\x7d"

/-- Comma-separated serialization of the elements of a JSON array. -/
def Json.dumpsArr : List Json → String
  | [] => ""
  | [x] => Json.dumps x
  | x :: y :: xs => Json.dumps x ++ ", " ++ Json.dumpsArr (y :: xs)

/-- Comma-separated serialization of the members of a JSON object. -/
def Json.dumpsObj : List (String × Json) → String
  | [] => ""
  | [(k, v)] => jsonStringLit k ++ ": " ++ Json.dumps v
  | (k, v) :: m :: kvs =>
      jsonStringLit k ++ ": " ++ Json.dumps v ++ ", " ++ Json.dumpsObj (m :: kvs)

end

/-- State of the Google credentials file `data/credentials.json`:
absent, or present but rejected by `gspread.service_account` (the
`except` branch of `get_gspread_client`), or present and accepted. -/
inductive CredsState where
  | absent : CredsState
  | invalid : CredsState
  | valid : CredsState
deriving DecidableEq, Repr

/-- Raw bytes of an uploaded evidence file. -/
abbrev Bytes := List Nat

/-- The server's observable state: the module-level `_gspread_client`
cache, the credentials file, the remote sheet service (per sheet name:
`some rows` when `open_by_key`/`worksheet`/`get_all_records` succeeds,
`none` on any remote failure), the two local fallback JSON files
(`none` = file absent, `some j` = file present with parsed contents
`j`), the telemetry log as a list of lines, and the evidence directory
as a list of (filename, contents) pairs. -/
structure AppState where
  gspreadClient : Option Unit
  credsFile : CredsState
  remoteSheets : String → Option Json
  binsFallback : Option Json
  lightsFallback : Option Json
  telemetryLog : List String
  evidenceFiles : List (String × Bytes)

/-- `SHEET_NAME_BINS` (default of the env var). -/
def SHEET_NAME_BINS : String := "devices"

/-- Embedding of `get_gspread_client` (src/app.py lines 23-41): return
the cached handle if set; otherwise return `None` when the credentials
file is absent, attempt construction when it exists, caching the handle
only on success (`except` leaves the cache `None` and returns `None`). -/
def get_gspread_client (st : AppState) : Option Unit × AppState :=
  match st.gspreadClient with
  | some c => (some c, st)
  | none =>
    match st.credsFile with
    | .absent => (none, st)
    | .invalid => (none, { st with gspreadClient := none })
    | .valid => (some (), { st with gspreadClient := some () })

/-- Embedding of `get_sheet_data` (src/app.py lines 43-55): get the
client; `None` client means `None`; otherwise read the sheet, with any
remote exception caught and converted to `None`. -/
def get_sheet_data (sheetName : String) (st : AppState) :
    Option Json × AppState :=
  let r := get_gspread_client st
  match r.1 with
  | none => (none, r.2)
  | some _ => (r.2.remoteSheets sheetName, r.2)

/-- Body of an HTTP response: `jsonify` output, or a rendered template
with the dataset handed to it. -/
inductive Body where
  | json (j : Json) : Body
  | page (template : String) (data : Json) : Body

/-- An HTTP response: status code and body. -/
structure Response where
  status : Nat
  body : Body

/-- Embedding of the `/bins` handler `bins_page` (src/app.py lines
61-71): sheet data, else the parsed bins fallback file, else `[]`;
always rendered with HTTP 200. -/
def bins_page (st : AppState) : Response × AppState :=
  let r := get_sheet_data SHEET_NAME_BINS st
  let binsData :=
    match r.1 with
    | none =>
      match r.2.binsFallback with
      | some content => content
      | none => Json.arr []
    | some d => d
  (⟨200, .page "bins.html" binsData⟩, r.2)

/-- Embedding of the `/api/bins` handler `bins_api` (src/app.py lines
73-78): 503 with an error body when the sheet is unavailable, otherwise
200 with the rows under `"data"`. -/
def bins_api (st : AppState) : Response × AppState :=
  let r := get_sheet_data SHEET_NAME_BINS st
  match r.1 with
  | none =>
    (⟨503, .json (.obj [("error",
        .str "Could not load Google Sheet (falling back to local file).")])⟩,
     r.2)
  | some d => (⟨200, .json (.obj [("data", d)])⟩, r.2)

/-- Embedding of the `/lights` handler `lights_page` (src/app.py lines
80-88): local fallback file only, else `[]`; HTTP 200. -/
def lights_page (st : AppState) : Response × AppState :=
  let lightsData :=
    match st.lightsFallback with
    | some content => content
    | none => Json.arr []
  (⟨200, .page "lights.html" lightsData⟩, st)

/-- Embedding of the `/api/lights` handler `lights_api` (src/app.py
lines 90-97): local fallback file only, else `[]`; HTTP 200. -/
def lights_api (st : AppState) : Response × AppState :=
  let data :=
    match st.lightsFallback with
    | some content => content
    | none => Json.arr []
  (⟨200, .json (.obj [("data", data)])⟩, st)

/-- Embedding of the `/api/telemetry` handler `receive_telemetry`
(src/app.py lines 99-115).  `body = some data` models a request whose
body parses as JSON; `none` models a parse failure, which the `except`
maps to HTTP 400.  On success the handler appends `json.dumps(data)` as
one line to `data/telemetry_log.json` and answers 200. -/
def receive_telemetry (body : Option Json) (st : AppState) :
    Response × AppState :=
  match body with
  | some data =>
    (⟨200, .json (.obj [("status", .str "success"),
                        ("message", .str "Telemetry received")])⟩,
     { st with telemetryLog := st.telemetryLog ++ [Json.dumps data] })
  | none =>
    (⟨400, .json (.obj [("status", .str "error"),
                        ("message", .str "parse failure")])⟩,
     st)

/-- Model of Python `str.replace` for a single-character pattern:
every occurrence of `c` is replaced by `r`. -/
def replaceChar (c r : Char) (s : String) : String :=
  String.mk (s.data.map fun x => if x = c then r else x)

/-- Model of Python `opt or default` for an optional string field from
`request.form.get`: `None` and the empty string are falsy. -/
def pyOrStr (o : Option String) (d : String) : String :=
  match o with
  | none => d
  | some s => if s = "" then d else s

/-- Whether an optional string field is truthy in Python. -/
def strTruthy (o : Option String) : Bool :=
  match o with
  | none => false
  | some s => decide (s ≠ "")

/-- The filename derivation of `upload_evidence` (src/app.py lines
127-131) for a request whose `timestamp` field is truthy: spaces in the
device id become underscores, colons in the timestamp become hyphens,
wrapped as `evidence_<device>_<timestamp>.jpg`. -/
def evidenceFilename (device_id : Option String) (ts : String) : String :=
  let safe_device := replaceChar ' ' '_' (pyOrStr device_id "unknown")
  let safe_ts := replaceChar ':' '-' ts
  "evidence_" ++ safe_device ++ "_" ++ safe_ts ++ ".jpg"

/-- Filesystem overwrite of one file in a flat directory: any existing
entry under `name` is replaced by `content`; a new entry is created
otherwise.  Models `file.save(filepath)`. -/
def saveFile (files : List (String × Bytes)) (name : String)
    (content : Bytes) : List (String × Bytes) :=
  files.filter (fun p => p.1 ≠ name) ++ [(name, content)]

/-- A multipart request to `/api/evidence/upload`: the two form fields
(`none` = absent) and the optional file part. -/
structure UploadRequest where
  device_id : Option String
  timestamp : Option String
  file : Option Bytes

/-- Embedding of the `/api/evidence/upload` handler `upload_evidence`
(src/app.py lines 117-139).  A missing file part answers 400.  A falsy
`timestamp` makes the handler evaluate the current-time default, which
raises a NameError because app.py never imports the time module; the
surrounding except turns that into HTTP 400 and nothing is saved.
Otherwise the file is stored under the derived name (overwriting) and
the handler answers 200 with the filename. -/
def upload_evidence (req : UploadRequest) (st : AppState) :
    Response × AppState :=
  match req.file with
  | none =>
    (⟨400, .json (.obj [("status", .str "error"),
                        ("message", .str "No file provided")])⟩,
     st)
  | some content =>
    if strTruthy req.timestamp then
      let ts := req.timestamp.getD ""
      let filename := evidenceFilename req.device_id ts
      (⟨200, .json (.obj [("status", .str "success"),
                          ("file_saved", .str filename)])⟩,
       { st with evidenceFiles := saveFile st.evidenceFiles filename content })
    else
      (⟨400, .json (.obj [("status", .str "error"),
                          ("message", .str "NameError: time is not defined")])⟩,
       st)

/-- Result of `predict_fill_rate`: the guard branch returns the string
`"No prediction"`, the other branch returns a number — the interface
irregularity is made explicit as a sum type. -/
inductive PredictResult where
  | noPrediction : PredictResult
  | days (d : ℚ) : PredictResult
deriving DecidableEq, Repr

/-- Round-half-to-even to an integer, as Python's `round` does. -/
def pyRoundInt (q : ℚ) : ℤ :=
  let f := ⌊q⌋
  let frac := q - (f : ℚ)
  if frac < 1 / 2 then f
  else if 1 / 2 < frac then f + 1
  else if f % 2 = 0 then f else f + 1

/-- Model of Python `round(x, 1)`: round-half-to-even at one decimal
place.  Arithmetic is idealized as exact rationals. -/
def pyRound1 (q : ℚ) : ℚ := (pyRoundInt (q * 10) : ℚ) / 10

/-- Embedding of `predict_fill_rate`
(src/models/prediction_model.py lines 2-8): days until full, or the
`"No prediction"` string when the average daily increase is not
positive.  The default argument of the source is kept. -/
def predict_fill_rate (current_fill : ℚ)
    (avg_daily_increase : ℚ := 5) : PredictResult :=
  let remaining := 100 - current_fill
  if avg_daily_increase ≤ 0 then .noPrediction
  else .days (pyRound1 (remaining / avg_daily_increase))

/-- Whether a response body is a JSON object carrying the given key. -/
def Response.hasJsonKey (r : Response) (k : String) : Bool :=
  match r.body with
  | .json (.obj kvs) => kvs.any (fun kv => kv.1 = k)
  | _ => false

/-- A fresh server state: no credentials file, no cached client, every
remote read failing, no fallback files, empty log and directory. -/
def emptyNoCredsState : AppState :=
  { gspreadClient := none
    credsFile := .absent
    remoteSheets := fun _ => none
    binsFallback := none
    lightsFallback := none
    telemetryLog := []
    evidenceFiles := [] }

/-- C1: whenever the remote sheet read yields Unavailable, `GET
/api/bins` answers HTTP 503 with an `error` key in the JSON body, and
the response is unchanged under any state of the local bins fallback
file: no fallback-to-file is applied on this endpoint. -/
theorem C1_bins_api_unavailable_503 (st : AppState)
    (h : (get_sheet_data SHEET_NAME_BINS st).1 = none) :
    (bins_api st).1.status = 503 ∧
    (bins_api st).1.hasJsonKey "error" = true ∧
    ∀ b : Option Json, (bins_api { st with binsFallback := b }).1 = (bins_api st).1 := by
  obtain ⟨gc, cf, rs, bf, lf, tl, ef⟩ := st
  cases gc <;> cases cf <;>
    simp_all [bins_api, get_sheet_data, get_gspread_client, Response.hasJsonKey]

/-- C1 witness: the 503 behaviour at a concrete credential-less state. -/
theorem C1_bins_api_unavailable_503_witness :
    (bins_api emptyNoCredsState).1.status = 503 ∧
    (bins_api emptyNoCredsState).1.hasJsonKey "error" = true :=
  ⟨(C1_bins_api_unavailable_503 emptyNoCredsState rfl).1,
   (C1_bins_api_unavailable_503 emptyNoCredsState rfl).2.1⟩

/-- C2: whenever the remote sheet read yields Unavailable, `GET /bins`
answers HTTP 200 and renders the parsed bins fallback file when it
exists, the empty dataset when it does not. -/
theorem C2_bins_page_fallback (st : AppState)
    (h : (get_sheet_data SHEET_NAME_BINS st).1 = none) :
    (bins_page st).1.status = 200 ∧
    (bins_page st).1.body = .page "bins.html" (st.binsFallback.getD (.arr [])) := by
  obtain ⟨gc, cf, rs, bf, lf, tl, ef⟩ := st
  cases gc <;> cases cf <;> cases bf <;>
    simp_all [bins_page, get_sheet_data, get_gspread_client]

/-- C2 witness: a concrete credential-less state whose bins fallback
file holds one row. -/
theorem C2_bins_page_fallback_witness :
    (bins_page { emptyNoCredsState with
        binsFallback := some (.arr [.str "row"]) }).1.status = 200 ∧
    (bins_page { emptyNoCredsState with
        binsFallback := some (.arr [.str "row"]) }).1.body =
      .page "bins.html" (.arr [.str "row"]) :=
  C2_bins_page_fallback
    { emptyNoCredsState with binsFallback := some (.arr [.str "row"]) } rfl

/-- C3 counterexample: with the credentials file absent, the first call
of `get_gspread_client` returns Unavailable without poisoning the
cache, so a credentials file added afterwards IS picked up by the next
call — refuting "never re-attempted after the first call". -/
theorem C3_counterexample_late_creds_pickup :
    (get_gspread_client emptyNoCredsState).1 = none ∧
    (get_gspread_client
      { (get_gspread_client emptyNoCredsState).2 with
        credsFile := .valid }).1 = some () :=
  ⟨rfl, rfl⟩

/-- C3 amended: only a SUCCESSFULLY constructed handle is cached for
the process lifetime — once the cache holds a client, every later call
returns it unchanged without re-attempting construction.  Failed
attempts (absent or invalid credentials) leave the cache empty and are
re-attempted on later calls. -/
theorem C3_amended_cached_client_stable (st : AppState)
    (h : st.gspreadClient = some ()) :
    get_gspread_client st = (some (), st) := by
  unfold get_gspread_client
  rw [h]

/-- C3 amended witness: stability of a concrete cached handle. -/
theorem C3_amended_cached_client_stable_witness :
    get_gspread_client { emptyNoCredsState with gspreadClient := some () } =
      (some (), { emptyNoCredsState with gspreadClient := some () }) :=
  C3_amended_cached_client_stable
    { emptyNoCredsState with gspreadClient := some () } rfl

/-- C4 (code bug): an evidence upload with a file part but no
`timestamp` form field does NOT get the current time substituted —
`upload_evidence` evaluates the current-time default through the `time`
module, which `app.py` never imports, so the handler raises a NameError
that its `except` converts into HTTP 400 with status `"error"`, and no
file is saved.  (A missing `device_id` with a timestamp present does
default to the placeholder `"unknown"`, as the claim says.) -/
theorem C4_missing_timestamp_name_error :
    (upload_evidence ⟨some "bin1", none, some [0, 1, 2]⟩
        emptyNoCredsState).1.status = 400 ∧
    ((upload_evidence ⟨some "bin1", none, some [0, 1, 2]⟩
        emptyNoCredsState).2).evidenceFiles = [] ∧
    (upload_evidence ⟨none, some "2024-01-01", some [0, 1, 2]⟩
        emptyNoCredsState).1 =
      ⟨200, .json (.obj [("status", .str "success"),
        ("file_saved", .str "evidence_unknown_2024-01-01.jpg")])⟩ :=
  ⟨rfl, rfl, rfl⟩

/-- C5 counterexample: the filename the claim states (colons replaced
by dots) is not the one the code derives. -/
theorem C5_counterexample_dot_filename :
    evidenceFilename (some "Bin 1") "2024-01-01T00:00:00+00:00" ≠
      "evidence_Bin_1_2024-01-01T00.00.00+00.00.jpg" := by
  decide

/-- C5 amended: for device id `"Bin 1"` and timestamp
`"2024-01-01T00:00:00+00:00"` the Evidence Ingestor stores the file as
`evidence_Bin_1_2024-01-01T00-00-00+00-00.jpg`: spaces become
underscores and colons become HYPHENS, not dots. -/
theorem C5_amended_hyphen_filename :
    (upload_evidence
        ⟨some "Bin 1", some "2024-01-01T00:00:00+00:00", some [7]⟩
        emptyNoCredsState).1 =
      ⟨200, .json (.obj [("status", .str "success"),
        ("file_saved",
         .str "evidence_Bin_1_2024-01-01T00-00-00+00-00.jpg")])⟩ ∧
    ((upload_evidence
        ⟨some "Bin 1", some "2024-01-01T00:00:00+00:00", some [7]⟩
        emptyNoCredsState).2).evidenceFiles =
      [("evidence_Bin_1_2024-01-01T00-00-00+00-00.jpg", [7])] := by
  constructor <;> rfl

/-- C6: posting the same parsed JSON body twice to `/api/telemetry`
leaves the log equal to the old log followed by exactly two appended
lines, each the serialization of the body; no earlier line changes, and
both requests answer HTTP 200. -/
theorem C6_telemetry_append_twice (b : Json) (st : AppState) :
    ((receive_telemetry (some b)
        ((receive_telemetry (some b) st).2)).2).telemetryLog =
      st.telemetryLog ++ [Json.dumps b, Json.dumps b] ∧
    (receive_telemetry (some b) st).1.status = 200 ∧
    (receive_telemetry (some b)
        ((receive_telemetry (some b) st).2)).1.status = 200 := by
  simp [receive_telemetry]

/-- Overwriting leaves exactly one directory entry under the saved
name, holding the new contents. -/
lemma filter_key_saveFile (l : List (String × Bytes)) (name : String)
    (c : Bytes) :
    (saveFile l name c).filter (fun p => p.1 = name) = [(name, c)] := by
  unfold saveFile
  rw [List.filter_append]
  have h1 : (l.filter (fun p => p.1 ≠ name)).filter
      (fun p => p.1 = name) = [] := by
    induction l with
    | nil => rfl
    | cons hd tl ih =>
      by_cases hhd : hd.1 = name <;> simp [List.filter, hhd, ih]
  simp [h1]

/-- C7: two evidence uploads with the same device id and the same
(truthy) timestamp leave exactly one file on disk under the derived
name, and its contents are the second upload's bytes. -/
theorem C7_evidence_overwrite (st : AppState) (dev : Option String)
    (ts : String) (b1 b2 : Bytes) (hts : ts ≠ "") :
    (((upload_evidence ⟨dev, some ts, some b2⟩
        ((upload_evidence ⟨dev, some ts, some b1⟩ st).2)).2).evidenceFiles).filter
        (fun p => p.1 = evidenceFilename dev ts) =
      [(evidenceFilename dev ts, b2)] := by
  simp only [upload_evidence, strTruthy, hts, decide_not, Option.getD]
  simp [hts, filter_key_saveFile]

/-- C7 witness: overwrite at a concrete pair of uploads. -/
theorem C7_evidence_overwrite_witness :
    (((upload_evidence ⟨some "Bin 7", some "t1", some [2]⟩
        ((upload_evidence ⟨some "Bin 7", some "t1", some [1]⟩
          emptyNoCredsState).2)).2).evidenceFiles).filter
        (fun p => p.1 = evidenceFilename (some "Bin 7") "t1") =
      [(evidenceFilename (some "Bin 7") "t1", [2])] :=
  C7_evidence_overwrite emptyNoCredsState (some "Bin 7") "t1" [1] [2]
    (by decide)

/-- C8: the lights endpoints never consult the remote sheet — their
responses are a function of the local lights fallback file alone (two
states agreeing on that file get identical responses, whatever their
credential, cache and remote-sheet states), the dataset served is the
parsed fallback file or empty, and neither handler mutates any state. -/
theorem C8_lights_local_only (st st2 : AppState)
    (h : st.lightsFallback = st2.lightsFallback) :
    (lights_api st).1 = (lights_api st2).1 ∧
    (lights_page st).1 = (lights_page st2).1 ∧
    (lights_api st).1 =
      ⟨200, .json (.obj [("data", st.lightsFallback.getD (.arr []))])⟩ ∧
    (lights_page st).1 =
      ⟨200, .page "lights.html" (st.lightsFallback.getD (.arr []))⟩ ∧
    (lights_api st).2 = st ∧
    (lights_page st).2 = st := by
  refine ⟨?_, ?_, ?_, ?_, rfl, rfl⟩ <;>
    simp [lights_api, lights_page, h] <;>
    cases st2.lightsFallback <;> simp

/-- C8 witness: a credential-less state and a fully credentialed state
with a live remote sheet, sharing one lights fallback file, answer
identically on both lights endpoints. -/
theorem C8_lights_local_only_witness :
    (lights_api { emptyNoCredsState with
        lightsFallback := some (.arr [.str "lamp"]) }).1 =
      (lights_api { emptyNoCredsState with
        lightsFallback := some (.arr [.str "lamp"])
        credsFile := .valid
        gspreadClient := some ()
        remoteSheets := fun _ => some (.arr []) }).1 ∧
    (lights_api { emptyNoCredsState with
        lightsFallback := some (.arr [.str "lamp"]) }).1 =
      ⟨200, .json (.obj [("data", .arr [.str "lamp"])])⟩ :=
  ⟨(C8_lights_local_only _ _ rfl).1, (C8_lights_local_only _ _ rfl).2.2.1⟩

/-- C9: a POST to `/api/evidence/upload` without a file part answers
HTTP 400 with status `"error"` and message exactly `"No file
provided"`, and changes nothing. -/
theorem C9_missing_file_400 (req : UploadRequest) (st : AppState)
    (h : req.file = none) :
    upload_evidence req st =
      (⟨400, .json (.obj [("status", .str "error"),
        ("message", .str "No file provided")])⟩, st) := by
  obtain ⟨d, t, f⟩ := req
  cases h
  rfl

/-- C9 witness: the 400 response at a concrete fileless request. -/
theorem C9_missing_file_400_witness :
    upload_evidence ⟨some "bin1", some "t", none⟩ emptyNoCredsState =
      (⟨400, .json (.obj [("status", .str "error"),
        ("message", .str "No file provided")])⟩, emptyNoCredsState) :=
  C9_missing_file_400 ⟨some "bin1", some "t", none⟩ emptyNoCredsState rfl

/-- C10: `predict_fill_rate` answers the `"No prediction"` string
exactly when the average daily increase is not positive, and otherwise
the number of days `(100 - current_fill) / avg_daily_increase` rounded
to one decimal place — a string on one branch and a number on the
other; on the example of the source, 70 percent full at the default
rate of 5 gives 6 days. -/
theorem C10_predict_fill_rate_spec (cf avg : ℚ) :
    predict_fill_rate cf avg =
      (if avg ≤ 0 then .noPrediction
       else .days (pyRound1 ((100 - cf) / avg))) ∧
    predict_fill_rate 70 = .days 6 := by
  constructor
  · rfl
  · show predict_fill_rate 70 5 = .days 6
    norm_num [predict_fill_rate, pyRound1, pyRoundInt]
